import Mathlib

/-
Verification of the API-integration layer of the sprint-4 front-end:
the resilient request executor (PatientApi.fetchWithRetry and friends),
the response normalizer (handleResponse / patient field remapping), and
the error classifier (ErrorHandler.handleApiError).  JavaScript values
flowing through these functions are modelled by a small JSON universe
with JS truthiness; thrown errors by a record of the fields the code
inspects; the network by an oracle giving the outcome of each attempt.
-/

namespace Sprint4

/-- JavaScript values as seen by the API layer: JSON plus `undefined`. -/
inductive Json where
  | undefined : Json
  | null : Json
  | bool : Bool → Json
  | num : Int → Json
  | str : String → Json
  | arr : List Json → Json
  | obj : List (String × Json) → Json

/-- First binding of a key in an object literal, `undefined` when absent. -/
def lookupField : List (String × Json) → String → Json
  | [], _ => .undefined
  | (k0, v) :: rest, k => if k0 == k then v else lookupField rest k

/-- JS property access `j[k]`: `undefined` on non-objects and missing keys. -/
def Json.idx (j : Json) (k : String) : Json :=
  match j with
  | .obj fields => lookupField fields k
  | _ => .undefined

/-- JS truthiness of a value (NaN is not modelled). -/
def Json.truthy : Json → Bool
  | .undefined => false
  | .null => false
  | .bool b => b
  | .num n => n != 0
  | .str s => s != ""
  | .arr _ => true
  | .obj _ => true

/-- JS `typeof v === 'object'` (true for null, arrays and objects). -/
def jsTypeofObject : Json → Bool
  | .null => true
  | .arr _ => true
  | .obj _ => true
  | _ => false

/-- JS short-circuit `a || b`. -/
def jsOr (a b : Json) : Json := if a.truthy then a else b

/-- JS chain `j.k1 || j.k2 || ... || default`. -/
def jsOrChain (j : Json) (keys : List String) (default : Json) : Json :=
  match keys with
  | [] => default
  | k :: rest => jsOr (j.idx k) (jsOrChain j rest default)

/-- JS property-key coercion of a value used as an object key. -/
def jsKeyString : Json → String
  | .str s => s
  | .num n => toString n
  | .bool b => if b then "true" else "false"
  | .null => "null"
  | .undefined => "undefined"
  | .arr _ => ""
  | .obj _ => "[object Object]"

/-- Matches `small.isPrefixOf big` on character lists. -/
def isPrefixChars : List Char → List Char → Bool
  | [], _ => true
  | _ :: _, [] => false
  | p :: ps, c :: cs => p == c && isPrefixChars ps cs

/-- Substring search on character lists. -/
def charsContains (pat : List Char) : List Char → Bool
  | [] => pat.isEmpty
  | c :: rest => isPrefixChars pat (c :: rest) || charsContains pat rest

/-- JS `s.includes(pat)`. -/
def jsIncludes (s pat : String) : Bool :=
  charsContains pat.toList s.toList

/-- JS `s.toLowerCase()` (ASCII, as used by the error classifier). -/
def jsToLower (s : String) : String :=
  String.mk (s.toList.map Char.toLower)

/-- Error taxonomy of `src/utils/errorHandler.ts` (`ErrorType`). -/
inductive ErrorType where
  | NETWORK
  | API
  | VALIDATION
  | AUTHENTICATION
  | AUTHORIZATION
  | TIMEOUT
  | CORS
  | UNKNOWN
deriving DecidableEq, Repr

/-- The `ERROR_MESSAGES` record of `errorHandler.ts`, keyed by its field names. -/
def ERROR_MESSAGES : String → String
  | "NETWORK_TIMEOUT" => "Tempo limite excedido. Verifique sua conexão e tente novamente."
  | "NETWORK_OFFLINE" => "Você está offline. Verifique sua conexão com a internet."
  | "NETWORK_ERROR" => "Erro de conexão. Verifique sua internet e tente novamente."
  | "SERVER_ERROR" => "Erro interno do servidor. Tente novamente em alguns minutos."
  | "BAD_REQUEST" => "Dados inválidos. Verifique os campos destacados."
  | "UNAUTHORIZED" => "Sessão expirada. Faça login novamente."
  | "FORBIDDEN" => "Você não tem permissão para realizar esta ação."
  | "NOT_FOUND" => "Recurso não encontrado."
  | "CONFLICT" => "Conflito de dados. O recurso já existe ou está sendo usado."
  | "UNPROCESSABLE_ENTITY" => "Dados não podem ser processados. Verifique as informações."
  | "TOO_MANY_REQUESTS" => "Muitas tentativas. Aguarde alguns minutos e tente novamente."
  | "SERVICE_UNAVAILABLE" => "Serviço temporariamente indisponível. Tente novamente em alguns minutos."
  | "VALIDATION_ERROR" => "Dados inválidos. Verifique os campos destacados."
  | "CORS_ERROR" => "Erro de configuração do servidor. Contate o suporte técnico."
  | "UNKNOWN_ERROR" => "Erro inesperado. Tente novamente ou contate o suporte."
  | "CHECK_CONNECTION" => "Verifique sua conexão com a internet"
  | "TRY_AGAIN_LATER" => "Tente novamente em alguns minutos"
  | "CONTACT_SUPPORT" => "Entre em contato com o suporte técnico"
  | "CHECK_FORM_DATA" => "Verifique os dados do formulário"
  | "REFRESH_PAGE" => "Recarregue a página e tente novamente"
  | _ => ""

/-- A thrown JS error, carrying exactly the fields the code inspects:
`name`, `message`, whether it is a `TypeError` instance, and the optional
`status` / `statusText` fields probed via `(error as any)`. -/
structure JsError where
  name : String
  message : String
  isTypeError : Bool
  status : Option Nat
  statusText : Option String

/-- The slice of `ErrorContext` the classifier branches on. -/
structure ErrorContext where
  operation : String
  url : String

/-- Classified error (`UserFriendlyError` of `errorHandler.ts`). -/
structure UserFriendlyError where
  type : ErrorType
  message : String
  technicalMessage : Option String
  suggestions : List String
  retryable : Bool

/-- NetworkUtils.isCorsError: a `TypeError` whose message contains
`Failed to fetch`, or an error named `TypeError` whose lower-cased
message contains `cors`. -/
def NetworkUtils.isCorsError (e : JsError) : Bool :=
  (e.isTypeError && e.message != "" && jsIncludes e.message "Failed to fetch")
  || (e.name == "TypeError" && e.message != "" && jsIncludes (jsToLower e.message) "cors")

/-- NetworkUtils.isNetworkError: offline, fetch-level `TypeError`, or
an `AbortError`.  `online` stands for `navigator.onLine`. -/
def NetworkUtils.isNetworkError (online : Bool) (e : JsError) : Bool :=
  !online
  || (e.isTypeError && e.message != "" && jsIncludes e.message "Failed to fetch")
  || (e.name == "AbortError")

/-- PatientApi.detectCorsIssue as called from the retry loop (error only,
no response argument). -/
def PatientApi.detectCorsIssue (e : JsError) : Bool :=
  NetworkUtils.isCorsError e

/-- ErrorHandler.handleHttpError: dispatch of an HTTP status to a category. -/
def ErrorHandler.handleHttpError (status : Nat) (message : String) (ctx : ErrorContext) :
    UserFriendlyError :=
  match status with
  | 400 =>
    let isApiCompatibilityIssue :=
      jsIncludes ctx.operation "Patient" || jsIncludes ctx.url "/paciente"
    { type := .VALIDATION
      message :=
        if isApiCompatibilityIssue then
          "Formato de dados incompatível com a API. A API Java pode estar esperando campos diferentes."
        else ERROR_MESSAGES "BAD_REQUEST"
      technicalMessage := some message
      suggestions :=
        if isApiCompatibilityIssue then
          ["Verifique se a API Java está configurada corretamente",
           "Os campos enviados podem não corresponder ao esperado pela API",
           "Contate o desenvolvedor da API Java para verificar o formato correto"]
        else [ERROR_MESSAGES "CHECK_FORM_DATA"]
      retryable := false }
  | 401 =>
    { type := .AUTHENTICATION, message := ERROR_MESSAGES "UNAUTHORIZED"
      technicalMessage := some message
      suggestions := [ERROR_MESSAGES "REFRESH_PAGE"], retryable := false }
  | 403 =>
    { type := .AUTHORIZATION, message := ERROR_MESSAGES "FORBIDDEN"
      technicalMessage := some message
      suggestions := [ERROR_MESSAGES "CONTACT_SUPPORT"], retryable := false }
  | 404 =>
    { type := .API, message := ERROR_MESSAGES "NOT_FOUND"
      technicalMessage := some message
      suggestions := [ERROR_MESSAGES "REFRESH_PAGE"], retryable := false }
  | 409 =>
    { type := .VALIDATION, message := ERROR_MESSAGES "CONFLICT"
      technicalMessage := some message
      suggestions := [ERROR_MESSAGES "CHECK_FORM_DATA"], retryable := false }
  | 422 =>
    { type := .VALIDATION, message := ERROR_MESSAGES "UNPROCESSABLE_ENTITY"
      technicalMessage := some message
      suggestions := [ERROR_MESSAGES "CHECK_FORM_DATA"], retryable := false }
  | 429 =>
    { type := .API, message := ERROR_MESSAGES "TOO_MANY_REQUESTS"
      technicalMessage := some message
      suggestions := [ERROR_MESSAGES "TRY_AGAIN_LATER"], retryable := true }
  | 500 | 502 | 503 | 504 =>
    { type := .API
      message :=
        if status == 503 then ERROR_MESSAGES "SERVICE_UNAVAILABLE"
        else ERROR_MESSAGES "SERVER_ERROR"
      technicalMessage := some message
      suggestions := [ERROR_MESSAGES "TRY_AGAIN_LATER"], retryable := true }
  | _ =>
    { type := .API, message := ERROR_MESSAGES "UNKNOWN_ERROR"
      technicalMessage := some (if message != "" then message else "HTTP " ++ toString status)
      suggestions := [ERROR_MESSAGES "TRY_AGAIN_LATER", ERROR_MESSAGES "CONTACT_SUPPORT"]
      retryable := status ≥ 500 }

/-- ErrorHandler.handleApiError: first matching rule wins.  `online`
stands for the live `navigator.onLine` probe. -/
def ErrorHandler.handleApiError (online : Bool) (e : JsError) (ctx : ErrorContext) :
    UserFriendlyError :=
  if !online then
    { type := .NETWORK, message := ERROR_MESSAGES "NETWORK_OFFLINE"
      technicalMessage := none
      suggestions := [ERROR_MESSAGES "CHECK_CONNECTION"], retryable := true }
  else if NetworkUtils.isCorsError e then
    { type := .CORS, message := ERROR_MESSAGES "CORS_ERROR"
      technicalMessage := some e.message
      suggestions := [ERROR_MESSAGES "CONTACT_SUPPORT"], retryable := false }
  else if NetworkUtils.isNetworkError online e then
    { type := .NETWORK, message := ERROR_MESSAGES "NETWORK_ERROR"
      technicalMessage := some e.message
      suggestions := [ERROR_MESSAGES "CHECK_CONNECTION", ERROR_MESSAGES "TRY_AGAIN_LATER"]
      retryable := true }
  else if e.name == "AbortError" || jsIncludes e.message "timeout" then
    { type := .TIMEOUT, message := ERROR_MESSAGES "NETWORK_TIMEOUT"
      technicalMessage := none
      suggestions := [ERROR_MESSAGES "CHECK_CONNECTION", ERROR_MESSAGES "TRY_AGAIN_LATER"]
      retryable := true }
  else
    match e.status with
    | some s =>
      if s != 0 then ErrorHandler.handleHttpError s e.message ctx
      else
        { type := .UNKNOWN, message := ERROR_MESSAGES "UNKNOWN_ERROR"
          technicalMessage := some (if e.message != "" then e.message else e.name)
          suggestions := [ERROR_MESSAGES "TRY_AGAIN_LATER", ERROR_MESSAGES "CONTACT_SUPPORT"]
          retryable := true }
    | none =>
      { type := .UNKNOWN, message := ERROR_MESSAGES "UNKNOWN_ERROR"
        technicalMessage := some (if e.message != "" then e.message else e.name)
        suggestions := [ERROR_MESSAGES "TRY_AGAIN_LATER", ERROR_MESSAGES "CONTACT_SUPPORT"]
        retryable := true }

/-- Retry policy record of patientApi.ts. -/
structure RetryConfig where
  maxAttempts : Nat
  baseDelay : Nat
  maxDelay : Nat
  backoffMultiplier : Nat

/-- PatientApi.RETRY_CONFIG. -/
def RETRY_CONFIG : RetryConfig :=
  { maxAttempts := 3, baseDelay := 1000, maxDelay := 10000, backoffMultiplier := 2 }

/-- PatientApi.getRetryDelay. -/
def PatientApi.getRetryDelay (attempt : Nat) : Nat :=
  min (RETRY_CONFIG.baseDelay * RETRY_CONFIG.backoffMultiplier ^ (attempt - 1))
    RETRY_CONFIG.maxDelay

/-- PatientApi.shouldRetryRequest. -/
def PatientApi.shouldRetryRequest (online : Bool) (e : JsError) (attempt : Nat) : Bool :=
  if attempt ≥ RETRY_CONFIG.maxAttempts then false
  else if NetworkUtils.isNetworkError online e then true
  else if e.name == "AbortError" then true
  else if (match e.status with | some s => decide (500 ≤ s) | none => false) then true
  else if e.status == some 429 then true
  else false

/-- An HTTP response as the code observes it: status, the raw body text,
the result of `JSON.parse` on that text (`none` when parsing throws),
whether the content-type header names `application/json`, and statusText. -/
structure HttpResponse where
  status : Nat
  bodyText : String
  bodyJson : Option Json
  contentTypeJson : Bool
  statusText : String

/-- Observable outcome of one run of the retry executor: how many HTTP
attempts were issued, the backoff delays slept between them, and the
response returned or the error finally thrown. -/
structure RetryTrace where
  attempts : Nat
  delays : List Nat
  result : Except JsError HttpResponse

/-- Device/probe state seen by PatientApi.checkNetworkConnectivity:
`navigator.onLine` and the status of the HEAD probe (`none` when the
probe fetch throws, which the code treats as reachable). -/
structure Net where
  online : Bool
  probeStatus : Option Nat

/-- PatientApi.checkNetworkConnectivity. -/
def PatientApi.checkNetworkConnectivity (net : Net) : Bool :=
  if !net.online then false
  else
    match net.probeStatus with
    | some s => decide (s < 500)
    | none => true

/-- The error thrown by fetchWithRetry when the connectivity pre-check fails. -/
def noConnectivityError : JsError :=
  { name := "Error", message := "No network connectivity", isTypeError := false
    status := none, statusText := none }

/-- Filler for the unreachable case of the retry loop running out of
attempt numbers: the source always leaves the loop through a `return`
or a `break`, because shouldRetryRequest is false at the last attempt. -/
def loopExhaustedError : JsError :=
  { name := "Error", message := "loop exhausted", isTypeError := false
    status := none, statusText := none }

/-- The body of the `for (attempt = 1; attempt <= maxAttempts; ...)` loop
of PatientApi.fetchWithRetry, run over the remaining attempt numbers.
`oracle n` is the outcome of the n-th HTTP attempt (the fetch resolving
to a response or throwing).  On a response the loop returns it at once;
on a CORS-classified error or a non-retryable error it breaks; otherwise
it sleeps `getRetryDelay attempt` and continues. -/
def retryGo (online : Bool) (oracle : Nat → Except JsError HttpResponse) :
    List Nat → RetryTrace
  | [] => { attempts := 0, delays := [], result := .error loopExhaustedError }
  | a :: rest =>
    match oracle a with
    | .ok r => { attempts := 1, delays := [], result := .ok r }
    | .error e =>
      if PatientApi.detectCorsIssue e then
        { attempts := 1, delays := [], result := .error e }
      else if !(PatientApi.shouldRetryRequest online e a) then
        { attempts := 1, delays := [], result := .error e }
      else if a < RETRY_CONFIG.maxAttempts then
        let t := retryGo online oracle rest
        { attempts := t.attempts + 1, delays := PatientApi.getRetryDelay a :: t.delays
          result := t.result }
      else
        { attempts := 1, delays := [], result := .error e }

/-- PatientApi.fetchWithRetry: connectivity pre-check, then the retry
loop over attempts 1 .. maxAttempts. -/
def PatientApi.fetchWithRetry (net : Net) (oracle : Nat → Except JsError HttpResponse) :
    RetryTrace :=
  if PatientApi.checkNetworkConnectivity net then
    retryGo net.online oracle (List.range' 1 RETRY_CONFIG.maxAttempts)
  else
    { attempts := 0, delays := [], result := .error noConnectivityError }

/-- Append a message under a field key, preserving first-insertion order,
as the `errors`-array fold of PatientApi.parseApiError does. -/
def pushValidation (m : List (String × Json)) (k : String) (v : Json) :
    List (String × Json) :=
  match m with
  | [] => [(k, .arr [v])]
  | (k0, v0) :: rest =>
    if k0 == k then
      (k0, match v0 with | .arr l => .arr (l ++ [v]) | other => other) :: rest
    else
      (k0, v0) :: pushValidation rest k v

/-- Fold of an `errors` array of `(field, message)` objects into a
field-to-messages map, skipping entries missing either field. -/
def foldValidation (l : List Json) : List (String × Json) :=
  l.foldl
    (fun m err =>
      if (err.idx "field").truthy && (err.idx "message").truthy then
        pushValidation m (jsKeyString (err.idx "field")) (err.idx "message")
      else m)
    []

/-- Structured error extracted from a non-2xx response
(return value of PatientApi.parseApiError). -/
structure ErrInfo where
  message : Json
  validationErrors : Option Json
  serverMessage : Json
  code : Json
  field : Json

/-- PatientApi.parseApiError: read the body (JSON when the content type
says so and parsing succeeds, else the raw text as a `message` field,
else `HTTP <status>`), pick the first truthy message key, and extract
validation errors from the three recognised shapes. -/
def PatientApi.parseApiError (r : HttpResponse) : ErrInfo :=
  let httpMsg := "HTTP " ++ toString r.status
  let errorData : Json :=
    if r.contentTypeJson then
      match r.bodyJson with
      | some j => j
      | none => .obj [("message", .str (if r.bodyText != "" then r.bodyText else httpMsg))]
    else
      .obj [("message", .str (if r.bodyText != "" then r.bodyText else httpMsg))]
  let message := jsOrChain errorData ["message", "error", "detail", "msg"] (.str httpMsg)
  let serverMessage :=
    jsOr (errorData.idx "message") (jsOr (errorData.idx "error") (errorData.idx "detail"))
  let validationErrors : Option Json :=
    if (errorData.idx "validationErrors").truthy then
      some (errorData.idx "validationErrors")
    else if (errorData.idx "errors").truthy then
      match errorData.idx "errors" with
      | .arr l => some (.obj (foldValidation l))
      | .obj m => some (.obj m)
      | _ => none
    else if (errorData.idx "field").truthy && (errorData.idx "message").truthy then
      some (.obj [(jsKeyString (errorData.idx "field"), .arr [errorData.idx "message"])])
    else none
  { message := message, validationErrors := validationErrors, serverMessage := serverMessage
    code := errorData.idx "code", field := errorData.idx "field" }

/-- The canonical projection of a raw patient object: fixed priority
order of alternate keys per canonical field, defaulting to the empty
string or zero. -/
def remapPatient (p : Json) : Json :=
  .obj
    [("id", p.idx "id"),
     ("name", jsOrChain p ["nomeCompleto", "nome", "name"] (.str "")),
     ("cpf", jsOrChain p ["cpfNumero", "cpf"] (.str "")),
     ("age", jsOrChain p ["idadePaciente", "idade", "age"] (.num 0)),
     ("gender", jsOrChain p ["sexo", "genero", "gender"] (.str "")),
     ("plan", jsOrChain p ["planoSaude", "plano", "plan"] (.str ""))]

/-- Per-element mapping of the array branch of PatientApi.handleResponse:
`if (!patient || typeof patient !== 'object') return patient;` else remap. -/
def remapElement (p : Json) : Json :=
  if !p.truthy || !jsTypeofObject p then p else remapPatient p

/-- The data-normalisation step of PatientApi.handleResponse on a parsed
2xx body: arrays have every element remapped; a single object is remapped
only when one of `nome`, `idade`, `genero`, `plano` is truthy; everything
else passes through. -/
def normalizeData (raw : Json) : Json :=
  if raw.truthy && jsTypeofObject raw then
    match raw with
    | .arr l => .arr (l.map remapElement)
    | _ =>
      if (raw.idx "nome").truthy || (raw.idx "idade").truthy
          || (raw.idx "genero").truthy || (raw.idx "plano").truthy then
        remapPatient raw
      else raw
  else raw

/-- The synthetic placeholder record built for a 201 response whose body
is non-empty but not JSON.  `now` models `Date.now()`. -/
def patientSynthetic201 (now : Int) (text : String) : Json :=
  .obj
    [("success", .bool true), ("message", .str text), ("id", .num now),
     ("name", .str "Paciente criado com sucesso"), ("cpf", .str ""),
     ("age", .num 0), ("gender", .str ""), ("plan", .str "")]

/-- `details` field of a result envelope. -/
structure Details where
  validationErrors : Option Json
  serverMessage : Json
  statusText : Json

/-- Result envelope (`ApiResponse<T>`).  `requestId` and `timestamp` are
fresh per call in the source and carry no logic, so they are omitted. -/
structure Envelope where
  success : Bool
  data : Option Json
  error : Option Json
  status : Nat
  details : Option Details

/-- PatientApi.handleResponse.  `now` models `Date.now()` for the
synthetic 201 record. -/
def PatientApi.handleResponse (now : Int) (r : HttpResponse) : Envelope :=
  if r.status == 200 || r.status == 201 then
    let rawData : Json :=
      match r.bodyJson with
      | some j => j
      | none =>
        if r.status == 201 && r.bodyText != "" then patientSynthetic201 now r.bodyText
        else .obj [("message", .str r.bodyText)]
    { success := true, data := some (normalizeData rawData), error := none
      status := r.status, details := none }
  else
    let errorInfo := PatientApi.parseApiError r
    { success := false, data := none, error := some errorInfo.message, status := r.status
      details := some
        { validationErrors := errorInfo.validationErrors
          serverMessage := errorInfo.serverMessage
          statusText := .str r.statusText } }

/-- ConsultaApi.handleResponse. -/
def ConsultaApi.handleResponse (r : HttpResponse) : Envelope :=
  if r.status == 200 || r.status == 201 then
    let data : Json :=
      match r.bodyJson with
      | some j => j
      | none => .obj [("message", .str r.bodyText), ("success", .bool true)]
    { success := true, data := some data, error := none, status := r.status, details := none }
  else
    { success := false, data := none
      error := some (.str (if r.bodyText != "" then r.bodyText else "HTTP " ++ toString r.status))
      status := r.status, details := none }

/-- ExameApi.handleResponse (textually identical to the consultation one). -/
def ExameApi.handleResponse (r : HttpResponse) : Envelope :=
  if r.status == 200 || r.status == 201 then
    let data : Json :=
      match r.bodyJson with
      | some j => j
      | none => .obj [("message", .str r.bodyText), ("success", .bool true)]
    { success := true, data := some data, error := none, status := r.status, details := none }
  else
    { success := false, data := none
      error := some (.str (if r.bodyText != "" then r.bodyText else "HTTP " ++ toString r.status))
      status := r.status, details := none }

/-- Observable effect of one API operation: the envelope handed to the
caller, how many HTTP attempts were issued, the backoff delays slept,
whether the connectivity pre-check ran, and the classification produced
for a thrown failure (none on the response path). -/
structure OpResult where
  envelope : Envelope
  attempts : Nat
  delays : List Nat
  connectivityChecked : Bool
  errorClass : Option UserFriendlyError

/-- Lift an optional string field of an error object to a JS value. -/
def optStr : Option String → Json
  | some s => .str s
  | none => .undefined

/-- PatientApi.getAllPatients: fetchWithRetry on /main/pacientes, the
response normalised by handleResponse, a thrown failure classified by
ErrorHandler.handleApiError and wrapped into an error envelope with
`status = error.status || 0`. -/
def PatientApi.getAllPatients (net : Net) (oracle : Nat → Except JsError HttpResponse)
    (now : Int) : OpResult :=
  let ctx : ErrorContext :=
    { operation := "getAllPatients"
      url := "https://sprint4-java-av1f.onrender.com/main/pacientes" }
  let t := PatientApi.fetchWithRetry net oracle
  match t.result with
  | .ok r =>
    { envelope := PatientApi.handleResponse now r, attempts := t.attempts
      delays := t.delays, connectivityChecked := true, errorClass := none }
  | .error e =>
    let ufe := ErrorHandler.handleApiError net.online e ctx
    { envelope :=
        { success := false, data := none, error := some (.str ufe.message)
          status := e.status.getD 0
          details := some
            { validationErrors := none
              serverMessage := optStr ufe.technicalMessage
              statusText := optStr e.statusText } }
      attempts := t.attempts, delays := t.delays, connectivityChecked := true
      errorClass := some ufe }

/-- ConsultaApi.getAllConsultas: a single fetchWithTimeout call (outcome
given directly), no connectivity pre-check and no retry; a thrown failure
becomes an error envelope with status 0. -/
def ConsultaApi.getAllConsultas (outcome : Except JsError HttpResponse) : OpResult :=
  match outcome with
  | .ok r =>
    { envelope := ConsultaApi.handleResponse r, attempts := 1, delays := []
      connectivityChecked := false, errorClass := none }
  | .error e =>
    { envelope :=
        { success := false, data := none, error := some (.str e.message)
          status := 0, details := none }
      attempts := 1, delays := [], connectivityChecked := false, errorClass := none }

/-- ExameApi.getAllExames: same shape as the consultation operation. -/
def ExameApi.getAllExames (outcome : Except JsError HttpResponse) : OpResult :=
  match outcome with
  | .ok r =>
    { envelope := ExameApi.handleResponse r, attempts := 1, delays := []
      connectivityChecked := false, errorClass := none }
  | .error e =>
    { envelope :=
        { success := false, data := none, error := some (.str e.message)
          status := 0, details := none }
      attempts := 1, delays := [], connectivityChecked := false, errorClass := none }

/-- PatientRequest as submitted by the form. -/
structure PatientRequest where
  name : String
  cpf : String
  age : Nat
  gender : String
  plan : String

/-- The `sexo` value of the first body variant of createPatient. -/
def sexoVariant1 (g : String) : String :=
  if g == "MASCULINO" then "M"
  else if g == "FEMININO" then "F"
  else if g == "M" then "M"
  else if g == "F" then "F"
  else "M"

/-- The `sexo` value of the second body variant of createPatient. -/
def sexoVariant2 (g : String) : String :=
  if g == "MASCULINO" then "m"
  else if g == "FEMININO" then "f"
  else if g == "M" then "m"
  else if g == "F" then "f"
  else "m"

/-- The `sexo` value of the fourth body variant of createPatient. -/
def sexoVariant4 (g : String) : String :=
  if g == "MASCULINO" then "M"
  else if g == "FEMININO" then "F"
  else g

/-- The `dataVariations` list of PatientApi.createPatient, in the order
the variants are tried against the endpoint. -/
def PatientApi.createDataVariations (p : PatientRequest) : List Json :=
  [.obj [("nomeCompleto", .str p.name), ("cpfNumero", .str p.cpf),
         ("idadePaciente", .num p.age), ("sexo", .str (sexoVariant1 p.gender)),
         ("planoSaude", .str p.plan)],
   .obj [("nomeCompleto", .str p.name), ("cpfNumero", .str p.cpf),
         ("idadePaciente", .num p.age), ("sexo", .str (sexoVariant2 p.gender)),
         ("planoSaude", .str p.plan)],
   .obj [("nomeCompleto", .str p.name), ("cpfNumero", .str p.cpf),
         ("idadePaciente", .num p.age), ("sexo", .str p.gender),
         ("planoSaude", .str p.plan)],
   .obj [("nome", .str p.name), ("cpf", .str p.cpf), ("idade", .num p.age),
         ("sexo", .str (sexoVariant4 p.gender)), ("plano", .str p.plan)]]

/-- An online device whose connectivity probe answers 200. -/
def onlineNet : Net := { online := true, probeStatus := some 200 }

/-- A request abort as thrown by an AbortController deadline. -/
def abortError : JsError :=
  { name := "AbortError", message := "The user aborted a request", isTypeError := false
    status := none, statusText := none }

/-- The browser error fetch throws on a CORS rejection. -/
def corsFetchError : JsError :=
  { name := "TypeError", message := "Failed to fetch", isTypeError := true
    status := none, statusText := none }

/-- An error whose message carries a timeout signature but no abort name
and no network signature. -/
def timeoutMessageError : JsError :=
  { name := "Error", message := "Request timeout of 30000ms exceeded", isTypeError := false
    status := none, statusText := none }

/-- An HTTP 500 response with an empty body. -/
def resp500 : HttpResponse :=
  { status := 500, bodyText := "", bodyJson := none, contentTypeJson := false
    statusText := "Internal Server Error" }

/-- Network oracle: the server answers HTTP 500 on every attempt. -/
def oracle500 : Nat → Except JsError HttpResponse := fun _ => .ok resp500

/-- Network oracle: every attempt is aborted (a retryable failure). -/
def abortOracle : Nat → Except JsError HttpResponse := fun _ => .error abortError

/-- Network oracle: every attempt fails with the CORS signature. -/
def corsOracle : Nat → Except JsError HttpResponse := fun _ => .error corsFetchError

/-- Context of the list-patients operation. -/
def defaultContext : ErrorContext :=
  { operation := "getAllPatients"
    url := "https://sprint4-java-av1f.onrender.com/main/pacientes" }

/-- The retry loop never makes more attempts than it has attempt numbers. -/
theorem retryGo_attempts_le (online : Bool) (oracle : Nat → Except JsError HttpResponse) :
    ∀ l : List Nat, (retryGo online oracle l).attempts ≤ l.length := by
  intro l
  induction l with
  | nil => simp [retryGo]
  | cons a rest ih =>
    simp only [retryGo, List.length_cons]
    cases oracle a with
    | ok r => simp
    | error e =>
      by_cases hc : PatientApi.detectCorsIssue e
      · simp [hc]
      · simp only [hc, if_false]
        by_cases hs : PatientApi.shouldRetryRequest online e a
        · simp only [hs, Bool.not_true, if_false]
          by_cases hl : a < RETRY_CONFIG.maxAttempts
          · simp only [hl, if_true]
            exact Nat.succ_le_succ ih
          · simp [hl]
        · simp [hs]

/-- Every delay the retry loop sleeps is the backoff delay of the attempt
number it follows. -/
theorem retryGo_delays_get (online : Bool) (oracle : Nat → Except JsError HttpResponse) :
    ∀ (l : List Nat) (i d : Nat),
      (retryGo online oracle l).delays.get? i = some d →
      ∃ a, l.get? i = some a ∧ d = PatientApi.getRetryDelay a := by
  intro l
  induction l with
  | nil => intro i d h; simp [retryGo] at h
  | cons a rest ih =>
    intro i d h
    simp only [retryGo] at h
    cases ho : oracle a with
    | ok r => rw [ho] at h; simp at h
    | error e =>
      rw [ho] at h
      by_cases hc : PatientApi.detectCorsIssue e
      · simp [hc] at h
      · simp only [hc, if_false] at h
        by_cases hs : PatientApi.shouldRetryRequest online e a
        · simp only [hs, Bool.not_true, if_false] at h
          by_cases hl : a < RETRY_CONFIG.maxAttempts
          · simp only [hl, if_true] at h
            cases i with
            | zero =>
              refine ⟨a, by simp, ?_⟩
              simp at h
              omega
            | succ j =>
              simp only [List.get?] at h
              obtain ⟨b, hb, hd⟩ := ih j d h
              exact ⟨b, by simpa using hb, hd⟩
          · simp [hl] at h
        · simp [hs] at h

/-- The executor issues at most `maxAttempts` HTTP attempts per call. -/
theorem fetchWithRetry_attempts_le (net : Net) (oracle : Nat → Except JsError HttpResponse) :
    (PatientApi.fetchWithRetry net oracle).attempts ≤ RETRY_CONFIG.maxAttempts := by
  unfold PatientApi.fetchWithRetry
  split
  · simpa using retryGo_attempts_le net.online oracle (List.range' 1 RETRY_CONFIG.maxAttempts)
  · simp

/-- C1: for every HTTP response processed into a result envelope — by the
patient, consultation or exam response handler — the envelope's `success`
field is true exactly when the response status is 200 or 201. -/
theorem envelope_success_iff_status_200_201 (now : Int) (r : HttpResponse) :
    (PatientApi.handleResponse now r).success = (r.status == 200 || r.status == 201)
    ∧ (ConsultaApi.handleResponse r).success = (r.status == 200 || r.status == 201)
    ∧ (ExameApi.handleResponse r).success = (r.status == 200 || r.status == 201) := by
  refine ⟨?_, ?_, ?_⟩ <;>
    simp only [PatientApi.handleResponse, ConsultaApi.handleResponse,
      ExameApi.handleResponse] <;>
    split <;> simp_all

/-- C2: one run of the retry executor issues at most maxAttempts = 3 HTTP
attempts, and the i-th backoff delay (slept after attempt i+1, before the
next attempt) equals min(1000 * 2^i, 10000) ms — exponential backoff from
1s, doubling, capped at 10s. -/
theorem fetchWithRetry_bounded_attempts_backoff
    (net : Net) (oracle : Nat → Except JsError HttpResponse) (i d : Nat)
    (h : (PatientApi.fetchWithRetry net oracle).delays.get? i = some d) :
    (PatientApi.fetchWithRetry net oracle).attempts ≤ 3
    ∧ d = min (1000 * 2 ^ i) 10000 := by
  refine ⟨fetchWithRetry_attempts_le net oracle, ?_⟩
  unfold PatientApi.fetchWithRetry at h
  by_cases hc : PatientApi.checkNetworkConnectivity net
  · simp only [hc, if_true] at h
    obtain ⟨a, ha, hd⟩ := retryGo_delays_get net.online oracle _ i d h
    rw [show List.range' 1 RETRY_CONFIG.maxAttempts = [1, 2, 3] from rfl] at ha
    have hai : a = i + 1 := by
      rcases i with _ | _ | _ | j <;> simp_all
    subst hai
    simpa [PatientApi.getRetryDelay, RETRY_CONFIG] using hd
  · simp [hc] at h

/-- Witness for C2 at a concrete run: an online device whose three
attempts are all aborted sleeps 1000 ms after the first attempt. -/
theorem fetchWithRetry_bounded_attempts_backoff_witness :
    (PatientApi.fetchWithRetry onlineNet abortOracle).delays.get? 0 = some 1000
    ∧ ((PatientApi.fetchWithRetry onlineNet abortOracle).attempts ≤ 3
       ∧ 1000 = min (1000 * 2 ^ 0) 10000) :=
  ⟨rfl, fetchWithRetry_bounded_attempts_backoff onlineNet abortOracle 0 1000 rfl⟩

/-- C3 (evaluation at the failing input): when the server answers HTTP 500
on every attempt, the executor returns after exactly one HTTP attempt with
no backoff delay — HTTP responses are returned immediately and never reach
shouldRetryRequest, so its 5xx/429 branches are unreachable; the final
envelope still has success = false with the parsed error message. -/
theorem http500_single_attempt_not_retried :
    (PatientApi.getAllPatients onlineNet oracle500 0).attempts = 1
    ∧ (PatientApi.getAllPatients onlineNet oracle500 0).delays = []
    ∧ (PatientApi.getAllPatients onlineNet oracle500 0).envelope.success = false
    ∧ (PatientApi.getAllPatients onlineNet oracle500 0).envelope.error
        = some (.str "HTTP 500")
    ∧ (PatientApi.getAllPatients onlineNet oracle500 0).envelope.status = 500 :=
  ⟨rfl, rfl, rfl, rfl, rfl⟩

/-- C4: a failure classified as CORS on the first attempt ends the run at
once: exactly one HTTP attempt, no backoff sleep, the error rethrown. -/
theorem cors_failure_single_attempt
    (net : Net) (oracle : Nat → Except JsError HttpResponse) (e : JsError)
    (hnet : PatientApi.checkNetworkConnectivity net = true)
    (hor : oracle 1 = .error e)
    (hcors : PatientApi.detectCorsIssue e = true) :
    (PatientApi.fetchWithRetry net oracle).attempts = 1
    ∧ (PatientApi.fetchWithRetry net oracle).delays = []
    ∧ (PatientApi.fetchWithRetry net oracle).result = .error e := by
  have hl : List.range' 1 RETRY_CONFIG.maxAttempts = 1 :: [2, 3] := rfl
  refine ⟨?_, ?_, ?_⟩ <;>
    simp [PatientApi.fetchWithRetry, hnet, hl, retryGo, hor, hcors]

/-- Witness for C4: the concrete browser CORS error (`TypeError` with
message `Failed to fetch`) thrown on the first attempt. -/
theorem cors_failure_single_attempt_witness :
    PatientApi.checkNetworkConnectivity onlineNet = true
    ∧ corsOracle 1 = .error corsFetchError
    ∧ PatientApi.detectCorsIssue corsFetchError = true
    ∧ ((PatientApi.fetchWithRetry onlineNet corsOracle).attempts = 1
       ∧ (PatientApi.fetchWithRetry onlineNet corsOracle).delays = []
       ∧ (PatientApi.fetchWithRetry onlineNet corsOracle).result = .error corsFetchError) :=
  ⟨rfl, rfl, rfl,
    cors_failure_single_attempt onlineNet corsOracle corsFetchError rfl rfl rfl⟩

/-- C5: with the device offline the list-patients operation makes zero
HTTP attempts, and the returned envelope has success = false and status 0,
the failure being classified in category NETWORK. -/
theorem offline_list_patients_zero_attempts
    (p : Option Nat) (oracle : Nat → Except JsError HttpResponse) (now : Int) :
    (PatientApi.getAllPatients { online := false, probeStatus := p } oracle now).attempts = 0
    ∧ (PatientApi.getAllPatients { online := false, probeStatus := p } oracle now).envelope.success
        = false
    ∧ (PatientApi.getAllPatients { online := false, probeStatus := p } oracle now).envelope.status
        = 0
    ∧ (PatientApi.getAllPatients { online := false, probeStatus := p } oracle now).errorClass.map
        UserFriendlyError.type = some ErrorType.NETWORK
    ∧ (PatientApi.getAllPatients { online := false, probeStatus := p } oracle now).envelope.error
        = some (.str (ERROR_MESSAGES "NETWORK_OFFLINE")) :=
  ⟨rfl, rfl, rfl, rfl, rfl⟩

/-- C6 (counterexample): an online `AbortError` without CORS signature is
classified NETWORK, not TIMEOUT — the generic network rule tests
`error.name === 'AbortError'` and fires before the abort/timeout rule. -/
theorem abort_error_classified_network_not_timeout :
    (ErrorHandler.handleApiError true abortError defaultContext).type = ErrorType.NETWORK
    ∧ (ErrorHandler.handleApiError true abortError defaultContext).type ≠ ErrorType.TIMEOUT :=
  ⟨rfl, by decide⟩

/-- C6 (amended): while online, a failure whose message contains `timeout`
is classified TIMEOUT with retryable = true, provided it is not named
`AbortError` (which the earlier generic-network rule absorbs) and carries
neither of the two CORS/network `TypeError` signatures. -/
theorem timeout_message_classified_timeout (e : JsError) (ctx : ErrorContext)
    (h1 : jsIncludes e.message "timeout" = true)
    (h2 : (e.name == "AbortError") = false)
    (h3 : (e.isTypeError && e.message != "" && jsIncludes e.message "Failed to fetch") = false)
    (h4 : (e.name == "TypeError" && e.message != ""
            && jsIncludes (jsToLower e.message) "cors") = false) :
    (ErrorHandler.handleApiError true e ctx).type = ErrorType.TIMEOUT
    ∧ (ErrorHandler.handleApiError true e ctx).retryable = true := by
  have hc : NetworkUtils.isCorsError e = false := by
    simp [NetworkUtils.isCorsError, h3, h4]
  have hn : NetworkUtils.isNetworkError true e = false := by
    simp [NetworkUtils.isNetworkError, h3, h2]
  refine ⟨?_, ?_⟩ <;> simp [ErrorHandler.handleApiError, hc, hn, h1, h2]

/-- Witness for the amended C6: a concrete online error whose message
contains `timeout` and which matches no earlier rule. -/
theorem timeout_message_classified_timeout_witness :
    jsIncludes timeoutMessageError.message "timeout" = true
    ∧ (timeoutMessageError.name == "AbortError") = false
    ∧ (timeoutMessageError.isTypeError && timeoutMessageError.message != ""
        && jsIncludes timeoutMessageError.message "Failed to fetch") = false
    ∧ (timeoutMessageError.name == "TypeError" && timeoutMessageError.message != ""
        && jsIncludes (jsToLower timeoutMessageError.message) "cors") = false
    ∧ ((ErrorHandler.handleApiError true timeoutMessageError defaultContext).type
          = ErrorType.TIMEOUT
       ∧ (ErrorHandler.handleApiError true timeoutMessageError defaultContext).retryable
          = true) :=
  ⟨rfl, rfl, rfl, rfl,
    timeout_message_classified_timeout timeoutMessageError defaultContext rfl rfl rfl rfl⟩

/-- A 200 response whose body is a single object carrying only the
alternate-language key `nomeCompleto`. -/
def altKeyObject : Json := .obj [("nomeCompleto", .str "Ana")]

/-- The HTTP response delivering `altKeyObject` as parsed JSON. -/
def altKeyResponse : HttpResponse :=
  { status := 200, bodyText := "\x7b\"nomeCompleto\":\"Ana\"\x7d"
    bodyJson := some altKeyObject, contentTypeJson := true, statusText := "OK" }

/-- C7 (counterexample): a single raw object exhibiting an
alternate-language key (`nomeCompleto`) is NOT remapped — the
single-object trigger probes only `nome`, `idade`, `genero`, `plano` —
so the envelope carries the raw object, not its canonical projection. -/
theorem alternate_key_single_object_not_remapped :
    (PatientApi.handleResponse 0 altKeyResponse).data = some altKeyObject
    ∧ (PatientApi.handleResponse 0 altKeyResponse).data
        ≠ some (remapPatient altKeyObject) := by
  refine ⟨rfl, ?_⟩
  intro h
  have e1 : (PatientApi.handleResponse 0 altKeyResponse).data = some altKeyObject := rfl
  rw [e1] at h
  injection h with h2
  exact Json.noConfusion (congrArg (fun j => Json.idx j "name") h2)

/-- C7 (amended): on a 200 response, a single raw object is remapped to
the canonical shape exactly when one of `nome`, `idade`, `genero`,
`plano` is truthy (alternate keys such as `nomeCompleto` alone do not
trigger it), while every element of a raw array is passed through the
per-element remapping unconditionally. -/
theorem remap_trigger_characterization (now : Int) (bt sx : String)
    (fields : List (String × Json)) (l : List Json) :
    (PatientApi.handleResponse now
        { status := 200, bodyText := bt, bodyJson := some (.obj fields)
          contentTypeJson := true, statusText := sx }).data
      = some
          (if ((Json.obj fields).idx "nome").truthy || ((Json.obj fields).idx "idade").truthy
              || ((Json.obj fields).idx "genero").truthy
              || ((Json.obj fields).idx "plano").truthy then
            remapPatient (.obj fields)
          else .obj fields)
    ∧ (PatientApi.handleResponse now
        { status := 200, bodyText := bt, bodyJson := some (.arr l)
          contentTypeJson := true, statusText := sx }).data
      = some (.arr (l.map remapElement)) :=
  ⟨rfl, rfl⟩

/-- The parsed 422 body `{"errors": [{"field":"cpf","message":"invalid"}]}`. -/
def body422 : Json :=
  .obj [("errors", .arr [.obj [("field", .str "cpf"), ("message", .str "invalid")]])]

/-- The HTTP 422 response delivering `body422`. -/
def resp422 : HttpResponse :=
  { status := 422
    bodyText := "\x7b\"errors\": [\x7b\"field\":\"cpf\",\"message\":\"invalid\"\x7d]\x7d"
    bodyJson := some body422, contentTypeJson := true
    statusText := "Unprocessable Entity" }

/-- C8: the 422 errors-array body folds into the field-to-messages map
`{"cpf": ["invalid"]}` in `details.validationErrors`, with success = false
and the error message degrading to `HTTP 422`. -/
theorem validation_errors_422_folded :
    (PatientApi.handleResponse 0 resp422).success = false
    ∧ (PatientApi.handleResponse 0 resp422).details.map Details.validationErrors
        = some (some (.obj [("cpf", .arr [.str "invalid"])]))
    ∧ (PatientApi.handleResponse 0 resp422).error = some (.str "HTTP 422") :=
  ⟨rfl, rfl, rfl⟩

/-- C9 (counterexample): on the same retryable failure (an abort), the
consultation and exam list operations make exactly one HTTP attempt and
never run the connectivity pre-check, while the patient executor makes
three attempts — so consultation/exam operations are not executed through
the resilient request executor. -/
theorem consulta_exame_bypass_executor :
    (ConsultaApi.getAllConsultas (.error abortError)).attempts = 1
    ∧ (ConsultaApi.getAllConsultas (.error abortError)).connectivityChecked = false
    ∧ (ExameApi.getAllExames (.error abortError)).attempts = 1
    ∧ (ExameApi.getAllExames (.error abortError)).connectivityChecked = false
    ∧ (PatientApi.fetchWithRetry onlineNet abortOracle).attempts = 3 :=
  ⟨rfl, rfl, rfl, rfl, rfl⟩

/-- C9 (amended): only the patient operations run through the resilient
request executor (connectivity pre-check, at most maxAttempts attempts);
consultation and exam operations issue exactly one timeout-wrapped fetch
with no pre-check and no retry, whatever the outcome. -/
theorem resilient_executor_covers_patients_only
    (outcome : Except JsError HttpResponse) (net : Net)
    (oracle : Nat → Except JsError HttpResponse) (now : Int) :
    (ConsultaApi.getAllConsultas outcome).attempts = 1
    ∧ (ConsultaApi.getAllConsultas outcome).connectivityChecked = false
    ∧ (ExameApi.getAllExames outcome).attempts = 1
    ∧ (ExameApi.getAllExames outcome).connectivityChecked = false
    ∧ (PatientApi.getAllPatients net oracle now).connectivityChecked = true
    ∧ (PatientApi.getAllPatients net oracle now).attempts ≤ 3 := by
  refine ⟨?_, ?_, ?_, ?_, ?_, ?_⟩
  · cases outcome <;> rfl
  · cases outcome <;> rfl
  · cases outcome <;> rfl
  · cases outcome <;> rfl
  · rcases hr : (PatientApi.fetchWithRetry net oracle).result with r | e <;>
      simp [PatientApi.getAllPatients, hr]
  · have hb : (PatientApi.fetchWithRetry net oracle).attempts ≤ 3 :=
      fetchWithRetry_attempts_le net oracle
    rcases hr : (PatientApi.fetchWithRetry net oracle).result with r | e <;>
      simp [PatientApi.getAllPatients, hr] <;> exact hb

/-- The patient request a form submits with the gender option `OUTRO`. -/
def outroPatient : PatientRequest :=
  { name := "Ana Silva", cpf := "12345678900", age := 30, gender := "OUTRO"
    plan := "Premium" }

/-- C10: for a patient whose gender is none of MASCULINO, FEMININO, M, F,
the four request-body variants tried by createPatient carry `sexo` values
M, m, then twice the original gender — the first two variants silently
coerce the gender. -/
theorem createPatient_variants_coerce_gender (p : PatientRequest)
    (h1 : (p.gender == "MASCULINO") = false)
    (h2 : (p.gender == "FEMININO") = false)
    (h3 : (p.gender == "M") = false)
    (h4 : (p.gender == "F") = false) :
    (PatientApi.createDataVariations p).map (fun v => v.idx "sexo")
      = [.str "M", .str "m", .str p.gender, .str p.gender] := by
  simp [PatientApi.createDataVariations, Json.idx, lookupField,
    sexoVariant1, sexoVariant2, sexoVariant4, h1, h2, h3, h4]

/-- Witness for C10 at the concrete gender `OUTRO`. -/
theorem createPatient_variants_coerce_gender_witness :
    (outroPatient.gender == "MASCULINO") = false
    ∧ (outroPatient.gender == "FEMININO") = false
    ∧ (outroPatient.gender == "M") = false
    ∧ (outroPatient.gender == "F") = false
    ∧ (PatientApi.createDataVariations outroPatient).map (fun v => v.idx "sexo")
        = [.str "M", .str "m", .str outroPatient.gender, .str outroPatient.gender] :=
  ⟨rfl, rfl, rfl, rfl,
    createPatient_variants_coerce_gender outroPatient rfl rfl rfl rfl⟩

end Sprint4
